import Mathlib

/-!
# Verification of the face-recognition frontend proxy and client contracts

Shallow embedding of the repository's three source files:

* `src/app/api/age/route.ts` — the age proxy endpoint (`POST`),
* `src/unnamed/part_000` — the verification proxy endpoint (`POST`),
* `src/app/ui/page.tsx` — two client components: a proxy-backed
  verification page and a multi-kind (verification/emotion/age/gender)
  page that calls the upstream API directly.

JavaScript strings are modelled as Lean `String`/`List Char`; JSON numbers
are modelled as exact rationals (`Rat`); the platform primitives the code
relies on (`JSON.parse`, `FileReader.readAsDataURL`, `String.split`,
`String.trim`, `Number.toFixed`) are embedded explicitly below.
-/

set_option autoImplicit false

namespace FaceRec

/-- JSON values as produced by `JSON.parse`.  Numbers are modelled as exact
rationals (IEEE doubles are not modelled; every concrete value appearing in
the claims is exactly representable and its arithmetic here agrees with the
double computation). -/
inductive Json where
  | null : Json
  | bool : Bool → Json
  | num : Rat → Json
  | str : String → Json
  | arr : List Json → Json
  | obj : List (String × Json) → Json

/-- Field lookup in a decoded JSON object (models JavaScript property access
on the result of `JSON.parse`, where parsed objects have no duplicate keys). -/
def lookupField : List (String × Json) → String → Option Json
  | [], _ => none
  | (k, v) :: rest, key => if k = key then some v else lookupField rest key

/-- `jsGet j k` models the JavaScript expression `j?.k`: property access on a
decoded JSON value, `none` standing for `undefined`. -/
def jsGet : Json → String → Option Json
  | .obj fields, k => lookupField fields k
  | _, _ => none

/-- JavaScript truthiness of a decoded JSON value (`false`, `0`, `""` and
`null` are falsy; objects and arrays are truthy). -/
def jsTruthy : Json → Bool
  | .null => false
  | .bool b => b
  | .num q => q != 0
  | .str s => s != ""
  | .arr _ => true
  | .obj _ => true

/-- A browser `File`: raw bytes (each `< 256`) plus the MIME type reported in
its `type` attribute.  `size` is the byte count. -/
structure File where
  bytes : List Nat
  mime : String

/-- The `size` attribute of a `File` (number of bytes). -/
def File.size (f : File) : Nat := f.bytes.length

/-- The base64 alphabet (RFC 4648), as used by `btoa`/data URLs. -/
def base64Chars : List Char :=
  "ABCDEFGHIJKLMNOPQRSTUVWXYZabcdefghijklmnopqrstuvwxyz0123456789+/".toList

/-- The base64 digit for a 6-bit value. -/
def b64Char (n : Nat) : Char := base64Chars.getD (n % 64) 'A'

/-- Standard base64 encoding of a byte sequence, as produced inside a
`FileReader.readAsDataURL` data URL. -/
def base64Encode : List Nat → List Char
  | [] => []
  | [b0] => [b64Char (b0 / 4), b64Char (b0 % 4 * 16), '=', '=']
  | [b0, b1] => [b64Char (b0 / 4), b64Char (b0 % 4 * 16 + b1 / 16),
      b64Char (b1 % 16 * 4), '=']
  | b0 :: b1 :: b2 :: rest =>
      b64Char (b0 / 4) :: b64Char (b0 % 4 * 16 + b1 / 16) ::
      b64Char (b1 % 16 * 4 + b2 / 64) :: b64Char (b2 % 64) :: base64Encode rest

/-- The character list of the data URL produced by
`FileReader.readAsDataURL(file)`: `data:<mime>;base64,<base64 payload>`. -/
def dataUrlChars (f : File) : List Char :=
  "data:".toList ++ f.mime.toList ++ ";base64,".toList ++ base64Encode f.bytes

/-- `readAsDataURL` as a string (the `reader.result` seen by the code). -/
def readAsDataURL (f : File) : String := (dataUrlChars f).asString

/-- JavaScript `String.prototype.split` with a single-character separator:
`jsSplit sep cs` splits `cs` at every occurrence of `sep`, keeping empty
pieces (so the result is always nonempty). -/
def jsSplit (sep : Char) : List Char → List (List Char)
  | [] => [[]]
  | c :: rest =>
    let r := jsSplit sep rest
    if c = sep then [] :: r
    else
      match r with
      | [] => [[c]]
      | h :: t => (c :: h) :: t

/-- The `fileToBase64` helper of both proxy routes (and of the multi-kind
client): read the file as a data URL, then take `dataUrl.split(",")[1]`,
dropping the `data:<mime>;base64,` part.  An out-of-range index (JavaScript
`undefined`) is modelled as `""`; it never occurs since the data URL always
contains a comma. -/
def fileToBase64 (f : File) : String :=
  ((jsSplit ',' (dataUrlChars f)).getD 1 []).asString

/-! ## Proxy endpoints (`src/app/api/age/route.ts` and `src/unnamed/part_000`)

A proxy `POST` handler is a function of the incoming request, of the
environment-supplied upstream URL, and of the outcome of the single `fetch`
it may issue.  The upstream interaction is represented by its observable
outcome: either a response (status, raw body text, and the result of
`JSON.parse` on that text) or a thrown error (carrying the JavaScript
`Error`'s `name`, `message` and `stack`). -/

/-- An upstream HTTP response as observed by the route: the status, the body
read as text, and `parsed = JSON.parse(bodyText)` (`none` when the parse
throws).  Well-formedness (`WF`): `JSON.parse("")` always throws, so an empty
body never parses. -/
structure UpstreamResponse where
  status : Nat
  bodyText : String
  parsed : Option Json

/-- `JSON.parse("")` throws, so an empty upstream body never decodes. -/
def UpstreamResponse.WF (r : UpstreamResponse) : Prop :=
  r.bodyText = "" → r.parsed = none

/-- A JavaScript `Error` as seen by the route's catch blocks. -/
structure JsError where
  name : String
  message : String
  stack : String

/-- Outcome of the route's single outbound `fetch` (a timeout abort surfaces
as a thrown error with `name = "AbortError"`). -/
inductive FetchOutcome where
  | success : UpstreamResponse → FetchOutcome
  | thrown : JsError → FetchOutcome

/-- The outbound request a proxy route issues to the upstream API. -/
structure OutboundRequest where
  url : String
  method : String
  contentType : String
  serviceCode : String
  apiKey : String
  body : Json

/-- The HTTP response a proxy route returns (`NextResponse.json(body, {status})`;
 the status defaults to 200). -/
structure ProxyResponse where
  status : Nat
  body : Json

/-- Everything observable about one invocation of a proxy route: the response
sent to the caller, the outbound call (if any), the timeout-timer delay (if a
timer was started) and whether `clearTimeout` was invoked. -/
structure RouteResult where
  response : ProxyResponse
  outbound : Option OutboundRequest
  timerDelayMs : Option Nat
  timerCleared : Bool

/-- `fetch`'s `Response.ok`: status in the range 200–299. -/
def statusOk (s : Nat) : Bool := 200 ≤ s && 299 ≥ s

/-- JavaScript falsiness of `request.headers.get(...)`: `null` or `""`. -/
def headerFalsy : Option String → Bool
  | none => true
  | some s => s = ""

/-- `responseText.substring(0, 500)`: the raw body truncated to at most 500
characters. -/
def truncate500 (s : String) : String := (s.toList.take 500).asString

/-- The 500 response built when the upstream body fails to parse as JSON
(both routes, lines 89–95 of the verification route and 83–89 of the age
route). -/
def parseFailureBody (bodyText : String) : Json :=
  .obj [("error", .str "Failed to parse API response as JSON"),
        ("details", .str (truncate500 bodyText))]

/-- The error body relayed for a non-`ok` upstream status:
`{ error: responseData?.message || "API returned error status: N",
   details: responseData, status: N }`. -/
def errorStatusBody (status : Nat) (data : Json) : Json :=
  let fallback : Json := .str ("API returned error status: " ++ toString status)
  let msg : Json :=
    match jsGet data "message" with
    | some m => if jsTruthy m then m else fallback
    | none => fallback
  .obj [("error", msg), ("details", data), ("status", .num status)]

/-- Response handling of the verification route (`src/unnamed/part_000`,
lines 77–109): parse the text body, on parse failure answer 500 with the
truncated raw body, on non-`ok` status relay the status with the decoded
body, otherwise return the decoded body with status 200. -/
def verifyHandleUpstream (r : UpstreamResponse) : ProxyResponse :=
  match r.parsed with
  | none => ⟨500, parseFailureBody r.bodyText⟩
  | some data =>
      if statusOk r.status then ⟨200, data⟩
      else ⟨r.status, errorStatusBody r.status data⟩

/-- Response handling of the age route (`src/app/api/age/route.ts`, lines
73–104).  It differs from the verification route in one place: an empty
(falsy) body text short-circuits to `{ error: "Empty response from API" }`
instead of attempting `JSON.parse`. -/
def ageHandleUpstream (r : UpstreamResponse) : ProxyResponse :=
  if r.bodyText = "" then
    let data : Json := .obj [("error", .str "Empty response from API")]
    if statusOk r.status then ⟨200, data⟩
    else ⟨r.status, errorStatusBody r.status data⟩
  else
    match r.parsed with
    | none => ⟨500, parseFailureBody r.bodyText⟩
    | some data =>
        if statusOk r.status then ⟨200, data⟩
        else ⟨r.status, errorStatusBody r.status data⟩

/-- The outer catch of both routes (lines 110–127 / 114–131): an
`AbortError` (the fired 30-second timer) becomes the timeout message, any
other `Error` becomes `` `Error: ${error.message}` ``; the response is 500
with `details = error.stack`. -/
def catchAllResponse (e : JsError) : ProxyResponse :=
  let msg :=
    if e.name = "AbortError" then "Request timed out after 30 seconds"
    else "Error: " ++ e.message
  ⟨500, .obj [("error", .str msg), ("details", .str e.stack)]⟩

/-- The age proxy request: the `X-API-KEY` header (absent = `none`) and the
`image` multipart field. -/
structure AgeRequest where
  apiKey : Option String
  image : Option File

/-- The verification proxy request: the `X-API-KEY` header and the
`img1`/`img2` multipart fields. -/
structure VerifyRequest where
  apiKey : Option String
  img1 : Option File
  img2 : Option File

/-- `POST` of `src/app/api/age/route.ts`.  `env` is `process.env.AGE_API_URL`;
`outcome` is what the single outbound `fetch` does.  Validation failures
return 400 before any timer is started or call issued; otherwise exactly one
outbound call is issued with a 30000 ms abort timer, and `clearTimeout` runs
on both the success path (line 67) and the rethrow path (line 106). -/
def agePOST (env : Option String) (req : AgeRequest) (outcome : FetchOutcome) :
    RouteResult :=
  let url := env.getD "https://face.simic.app/api/age/"
  if headerFalsy req.apiKey then
    ⟨⟨400, .obj [("error", .str "X-API-KEY is required")]⟩, none, none, false⟩
  else
    match req.image with
    | none => ⟨⟨400, .obj [("error", .str "Image is required")]⟩, none, none, false⟩
    | some img =>
        let ob : OutboundRequest :=
          ⟨url, "POST", "application/json", "face", req.apiKey.getD "",
            .obj [("image", .str (fileToBase64 img))]⟩
        match outcome with
        | .success r => ⟨ageHandleUpstream r, some ob, some 30000, true⟩
        | .thrown e => ⟨catchAllResponse e, some ob, some 30000, true⟩

/-- `POST` of the verification route (`src/unnamed/part_000`).  `env` is
`process.env.FACE_API_URL`; both images are required (`!img1 || !img2`). -/
def verifyPOST (env : Option String) (req : VerifyRequest)
    (outcome : FetchOutcome) : RouteResult :=
  let url := env.getD "https://face.simic.app/api/verify/"
  if headerFalsy req.apiKey then
    ⟨⟨400, .obj [("error", .str "X-API-KEY is required")]⟩, none, none, false⟩
  else
    match req.img1, req.img2 with
    | some f1, some f2 =>
        let ob : OutboundRequest :=
          ⟨url, "POST", "application/json", "face", req.apiKey.getD "",
            .obj [("img1", .str (fileToBase64 f1)),
                  ("img2", .str (fileToBase64 f2))]⟩
        (match outcome with
        | .success r => ⟨verifyHandleUpstream r, some ob, some 30000, true⟩
        | .thrown e => ⟨catchAllResponse e, some ob, some 30000, true⟩)
    | _, _ =>
        ⟨⟨400, .obj [("error", .str "Both images are required")]⟩, none, none, false⟩

/-! ## Shared client-side primitives (`src/app/ui/page.tsx`) -/

/-- ECMAScript whitespace as recognised by `String.prototype.trim` (space,
tab, line terminators, vertical tab, form feed, NBSP, BOM, LS, PS). -/
def jsWhitespaceChar (c : Char) : Bool :=
  c == ' ' || c == '\t' || c == '\n' || c == '\r' || c.toNat == 11 ||
    c.toNat == 12 || c.toNat == 160 || c.toNat == 0xFEFF ||
    c.toNat == 0x2028 || c.toNat == 0x2029

/-- `String.prototype.trim`: strip whitespace from both ends. -/
def jsTrim (s : String) : String :=
  (((s.toList.dropWhile jsWhitespaceChar).reverse.dropWhile
      jsWhitespaceChar).reverse).asString

/-- Truthiness of a possibly-`undefined` JavaScript value. -/
def jsTruthyOpt : Option Json → Bool
  | none => false
  | some j => jsTruthy j

/-- How React displays an interpolated JSON value as text (only string
fields are displayed as-is in the claims under study). -/
def jsDisplay : Json → String
  | .str s => s
  | _ => ""

/-- Two base-10 digits with a leading zero. -/
def pad2 (m : Nat) : String := if m < 10 then "0" ++ toString m else toString m

/-- `Number.prototype.toFixed(2)`: the integer `n` closest to `100 * q`
(ties toward the larger `n`, per ECMA-262), printed with two decimals. -/
def jsToFixed2 (q : Rat) : String :=
  let n : Int := Rat.floor (q * 100 + 1/2)
  let sign := if n < 0 then "-" else ""
  let m := n.natAbs
  sign ++ toString (m / 100) ++ "." ++ pad2 (m % 100)

/-- Outcome of a client-side `fetch` + `res.json()`: either a reply
(`res.ok` and the decoded body) or a thrown `Error` message (network
failure, body-decode failure, or an image-read failure). -/
inductive ClientOutcome where
  | reply : Bool → Json → ClientOutcome
  | netError : String → ClientOutcome

/-- The failure branch of every submit handler:
`typeof data.error === "string" ? data.error : <kind-specific fallback>`. -/
def errorMessageOf (data : Json) (fallback : String) : String :=
  match jsGet data "error" with
  | some (.str s) => s
  | _ => fallback

/-- The failure branch's `setErrorDetails(data.details || data)`. -/
def errorDetailsOf (data : Json) : Json :=
  match jsGet data "details" with
  | some d => if jsTruthy d then d else data
  | none => data

/-! ## Client variant 1: the proxy-backed verification page
(`src/app/ui/page.tsx`, lines 1–407) -/

namespace ProxyPage

/-- The component's `useState` hooks. -/
structure State where
  apiKey : String
  isApiKeySaved : Bool
  isEditingApiKey : Bool
  image1 : Option FaceRec.File
  image2 : Option FaceRec.File
  image1Preview : Option String
  image2Preview : Option String
  isLoading : Bool
  response : Option Json
  error : Option String
  errorDetails : Option Json
  showDebug : Bool

/-- The `fetch` this page issues on submit: a multipart `FormData` POST
carrying the two `File`s, with the `X-API-KEY` and `X-Service-Code`
headers. -/
structure FormCall where
  url : String
  apiKey : String
  serviceCode : String
  img1 : FaceRec.File
  img2 : FaceRec.File

/-- `saveApiKey` (lines 60–66): persist only when `apiKey.trim()` is
truthy.  The second component is the stored credential (the value under the
local-storage key). -/
def saveApiKey (s : State) (storage : Option String) :
    State × Option String :=
  if jsTrim s.apiKey ≠ "" then
    ({ s with isApiKeySaved := true, isEditingApiKey := false }, some s.apiKey)
  else (s, storage)

/-- `handleSubmit` (lines 115–178).  Returns the new state and the call
issued (`none` when validation fails before any network step).  A thrown
`Error` anywhere in the `try` block surfaces through the `catch` as
`setError(err.message)`. -/
def handleSubmit (env : Option String) (s : State) (outcome : ClientOutcome) :
    State × Option FormCall :=
  if s.image1.isNone || s.image2.isNone || s.apiKey == "" then
    ({ s with error := some "All fields are required" }, none)
  else
    match s.image1, s.image2 with
    | some f1, some f2 =>
        let s1 := { s with isLoading := true, error := none,
                           errorDetails := none, response := none }
        let call : FormCall :=
          ⟨env.getD "https://face.simic.app/api/verify/", s.apiKey, "face", f1, f2⟩
        (match outcome with
        | .reply ok data =>
            if ok then
              ({ s1 with response := some data, isLoading := false }, some call)
            else
              ({ s1 with
                  errorDetails := some (errorDetailsOf data),
                  error := some (errorMessageOf data "Failed to verify faces"),
                  isLoading := false }, some call)
        | .netError m =>
            ({ s1 with error := some m, isLoading := false }, some call))
    | _, _ => ({ s with error := some "All fields are required" }, none)

/-- The `Similarity Score` percentage text:
`(response.similarity_score * 100).toFixed(2)`. -/
def similarityText (data : Json) : String :=
  match jsGet data "similarity_score" with
  | some (.num q) => jsToFixed2 (q * 100)
  | _ => "NaN"

/-- The text fragments rendered by the result footer (lines 377–403): the
alert title (`response.verified ? "Match Found" : "No Match"`), the message,
the similarity line, and the raw-dump heading. -/
def resultFooterFragments (data : Json) : List String :=
  [ if jsTruthyOpt (jsGet data "verified") then "Match Found" else "No Match"
  , jsDisplay ((jsGet data "message").getD .null)
  , "Similarity Score: " ++ similarityText data ++ "%"
  , "API Response:" ]

/-- The raw structured dump shown under "API Response:"
(`JSON.stringify(response, null, 2)`). -/
def resultFooterDump (data : Json) : Json := data

end ProxyPage

/-! ## Client variant 2: the multi-kind page
(`src/app/ui/page.tsx`, lines 408–1281) -/

namespace MultiPage

/-- Maximum image size in bytes (5MB), line 454. -/
def MAX_IMAGE_SIZE : Nat := 5 * 1024 * 1024

/-- The component's `useState` hooks. -/
structure State where
  activeTab : String
  apiKey : String
  isApiKeySaved : Bool
  isEditingApiKey : Bool
  image1 : Option FaceRec.File
  image2 : Option FaceRec.File
  image1Preview : Option String
  image2Preview : Option String
  verificationResponse : Option Json
  emotionImage : Option FaceRec.File
  emotionImagePreview : Option String
  emotionResponse : Option Json
  ageImage : Option FaceRec.File
  ageImagePreview : Option String
  ageResponse : Option Json
  genderImage : Option FaceRec.File
  genderImagePreview : Option String
  genderResponse : Option Json
  isLoading : Bool
  error : Option String
  errorDetails : Option Json
  showDebug : Bool

/-- The direct-to-upstream JSON `fetch` issued by this page's submit
handlers. -/
structure JsonCall where
  url : String
  contentType : String
  apiKey : String
  serviceCode : String
  body : Json

/-- `saveApiKey` (lines 525–531), identical to the proxy page's. -/
def saveApiKey (s : State) (storage : Option String) :
    State × Option String :=
  if jsTrim s.apiKey ≠ "" then
    ({ s with isApiKeySaved := true, isEditingApiKey := false }, some s.apiKey)
  else (s, storage)

/-- `validateImageSize` (lines 557–563): oversize files set a local error
and report `false`. -/
def validateImageSize (s : State) (f : FaceRec.File) : State × Bool :=
  if f.size > MAX_IMAGE_SIZE then
    ({ s with error := some ("Image size exceeds the maximum limit of " ++
        toString (MAX_IMAGE_SIZE / (1024 * 1024)) ++ "MB") }, false)
  else (s, true)

/-- `handleImage1Change` (lines 566–578): with a selected file, reject
oversize before storing the file or starting the preview read; otherwise
store the file and (on reader load) the data-URL preview. -/
def handleImage1Change (s : State) (files : Option FaceRec.File) : State :=
  match files with
  | none => s
  | some f =>
      let (s1, ok) := validateImageSize s f
      if ok then
        { s1 with image1 := some f, image1Preview := some (readAsDataURL f) }
      else s1

/-- `handleImage2Change` (lines 580–592). -/
def handleImage2Change (s : State) (files : Option FaceRec.File) : State :=
  match files with
  | none => s
  | some f =>
      let (s1, ok) := validateImageSize s f
      if ok then
        { s1 with image2 := some f, image2Preview := some (readAsDataURL f) }
      else s1

/-- `handleEmotionImageChange` (lines 594–606). -/
def handleEmotionImageChange (s : State) (files : Option FaceRec.File) : State :=
  match files with
  | none => s
  | some f =>
      let (s1, ok) := validateImageSize s f
      if ok then
        { s1 with emotionImage := some f,
                  emotionImagePreview := some (readAsDataURL f) }
      else s1

/-- `handleAgeImageChange` (lines 608–620). -/
def handleAgeImageChange (s : State) (files : Option FaceRec.File) : State :=
  match files with
  | none => s
  | some f =>
      let (s1, ok) := validateImageSize s f
      if ok then
        { s1 with ageImage := some f, ageImagePreview := some (readAsDataURL f) }
      else s1

/-- `handleGenderImageChange` (lines 622–634). -/
def handleGenderImageChange (s : State) (files : Option FaceRec.File) : State :=
  match files with
  | none => s
  | some f =>
      let (s1, ok) := validateImageSize s f
      if ok then
        { s1 with genderImage := some f,
                  genderImagePreview := some (readAsDataURL f) }
      else s1

/-- `handleVerificationSubmit` (lines 637–696): key then images are checked
before any encode or network step; otherwise the two images are base64
encoded and one direct JSON call is issued to the verify URL. -/
def handleVerificationSubmit (env : Option String) (s : State)
    (outcome : ClientOutcome) : State × Option JsonCall :=
  if s.apiKey == "" then
    ({ s with error := some "API key is required" }, none)
  else
    match s.image1, s.image2 with
    | some f1, some f2 =>
        let s1 := { s with isLoading := true, error := none,
                           errorDetails := none, verificationResponse := none }
        let call : JsonCall :=
          ⟨env.getD "https://face.simic.app/api/verify/", "application/json",
            s.apiKey, "face",
            .obj [("img1", .str (fileToBase64 f1)),
                  ("img2", .str (fileToBase64 f2))]⟩
        (match outcome with
        | .reply ok data =>
            if ok then
              ({ s1 with verificationResponse := some data,
                         isLoading := false }, some call)
            else
              ({ s1 with
                  errorDetails := some (errorDetailsOf data),
                  error := some (errorMessageOf data "Failed to verify faces"),
                  isLoading := false }, some call)
        | .netError m =>
            ({ s1 with error := some m, isLoading := false }, some call))
    | _, _ => ({ s with error := some "Both images are required" }, none)

/-- The verification tab's result block (lines 1174–1184): it renders only
the raw-dump heading and the structured dump — no summary alert, no title,
no similarity line. -/
def verificationResultFragments (_data : Json) : List String :=
  ["API Response:"]

/-- The raw structured dump shown by the verification tab
(`JSON.stringify(verificationResponse, null, 2)`). -/
def verificationResultDump (data : Json) : Json := data

end MultiPage

/-- The proxy page's initial `useState` values. -/
def ProxyPage.initialState : ProxyPage.State :=
  ⟨"", false, false, none, none, none, none, false, none, none, none, false⟩

/-- The multi-kind page's initial `useState` values. -/
def MultiPage.initialState : MultiPage.State :=
  ⟨"verification", "", false, false, none, none, none, none, none, none,
    none, none, none, none, none, none, none, none, false, none, none, false⟩

/-- A multi-kind page state ready to submit a verification request: a saved
key and two selected images. -/
def MultiPage.readyState : MultiPage.State :=
  { MultiPage.initialState with
      apiKey := "secret"
      image1 := some ⟨[1], "image/png"⟩
      image2 := some ⟨[2], "image/png"⟩ }

/-- A proxy-page state ready to submit a verification request. -/
def ProxyPage.readyState : ProxyPage.State :=
  { ProxyPage.initialState with
      apiKey := "secret"
      image1 := some ⟨[1], "image/png"⟩
      image2 := some ⟨[2], "image/png"⟩ }

/-- The success payload of the spec's verification scenario:
`{ verified: true, similarity_score: 0.93, message: "Match" }`. -/
def verifySuccessPayload : Json :=
  .obj [("verified", .bool true), ("similarity_score", .num (93/100)),
        ("message", .str "Match")]

/-- A file exceeding the 5 MB ceiling by one byte. -/
def oversizeFile : File := ⟨List.replicate (5 * 1024 * 1024 + 1) 0, "image/jpeg"⟩

/-! ## Properties of the base64 / data-URL pipeline -/

theorem b64Char_ne_comma (n : Nat) : b64Char n ≠ ',' := by
  have hlt : n % 64 < 64 := Nat.mod_lt _ (by decide)
  have key : ∀ m, m < 64 → base64Chars.getD m 'A' ≠ ',' := by decide
  exact key _ hlt

theorem base64Encode_no_comma : (bs : List Nat) → ',' ∉ base64Encode bs
  | [] => by simp [base64Encode]
  | [b0] => by
      simp only [base64Encode, List.mem_cons, List.not_mem_nil, or_false]
      push_neg
      exact ⟨fun h => b64Char_ne_comma _ h.symm, fun h => b64Char_ne_comma _ h.symm,
        by decide, by decide⟩
  | [b0, b1] => by
      simp only [base64Encode, List.mem_cons, List.not_mem_nil, or_false]
      push_neg
      exact ⟨fun h => b64Char_ne_comma _ h.symm, fun h => b64Char_ne_comma _ h.symm,
        fun h => b64Char_ne_comma _ h.symm, by decide⟩
  | b0 :: b1 :: b2 :: rest => by
      have ih := base64Encode_no_comma rest
      simp only [base64Encode, List.mem_cons]
      push_neg
      exact ⟨fun h => b64Char_ne_comma _ h.symm, fun h => b64Char_ne_comma _ h.symm,
        fun h => b64Char_ne_comma _ h.symm, fun h => b64Char_ne_comma _ h.symm, ih⟩

theorem jsSplit_of_not_mem {sep : Char} {a : List Char} (h : sep ∉ a) :
    jsSplit sep a = [a] := by
  induction a with
  | nil => rfl
  | cons c rest ih =>
      have hc : c ≠ sep := fun hc => h (hc ▸ List.mem_cons_self c rest)
      have hrest : sep ∉ rest := fun hm => h (List.mem_cons_of_mem _ hm)
      simp [jsSplit, hc, ih hrest]

theorem jsSplit_append_sep {sep : Char} {a b : List Char} (h : sep ∉ a) :
    jsSplit sep (a ++ sep :: b) = a :: jsSplit sep b := by
  induction a with
  | nil => simp [jsSplit]
  | cons c rest ih =>
      have hc : c ≠ sep := fun hc => h (hc ▸ List.mem_cons_self c rest)
      have hrest : sep ∉ rest := fun hm => h (List.mem_cons_of_mem _ hm)
      simp [jsSplit, hc, ih hrest]

/-- When the file's MIME type contains no comma (true of all browser-reported
image MIME types), `fileToBase64` is exactly the base64 encoding of the raw
bytes: the data-URL format prefix is stripped. -/
theorem fileToBase64_eq_base64 (f : File) (h : ',' ∉ f.mime.toList) :
    fileToBase64 f = (base64Encode f.bytes).asString := by
  have hsplit : dataUrlChars f =
      ("data:".toList ++ f.mime.toList ++ ";base64".toList) ++
        ',' :: base64Encode f.bytes := by
    have hlit : ";base64,".toList = ";base64".toList ++ [','] := by decide
    simp [dataUrlChars, hlit]
  have hpre : ',' ∉ "data:".toList ++ f.mime.toList ++ ";base64".toList := by
    intro hm
    rcases List.mem_append.mp hm with hm | hm
    · rcases List.mem_append.mp hm with hm | hm
      · exact absurd hm (by decide)
      · exact h hm
    · exact absurd hm (by decide)
  have : jsSplit ',' (dataUrlChars f) =
      ("data:".toList ++ f.mime.toList ++ ";base64".toList) ::
        jsSplit ',' (base64Encode f.bytes) := by
    rw [hsplit]
    exact jsSplit_append_sep hpre
  rw [fileToBase64, this, jsSplit_of_not_mem (base64Encode_no_comma f.bytes)]
  rfl

/-! ## Claims -/

/-- C1 counterexample: the claim asserts every upstream body that fails JSON
decoding yields HTTP 500 with the parse-failure error.  `JSON.parse("")`
always throws, yet the age route short-circuits an empty body to
`{ error: "Empty response from API" }` and relays it with HTTP 200 when the
upstream status was 200 — not 500 and not the parse-failure error. -/
theorem c1_counterexample :
    (agePOST none ⟨some "key", some ⟨[1], "image/png"⟩⟩
        (.success ⟨200, "", none⟩)).response =
      ⟨200, .obj [("error", .str "Empty response from API")]⟩ ∧
    (200 : Nat) ≠ 500 :=
  ⟨rfl, by decide⟩

/-- C1 (amended): for every upstream response whose body fails JSON
decoding, the verification proxy responds HTTP 500 with error
"Failed to parse API response as JSON" and details the raw body truncated to
at most 500 characters; the age proxy does the same whenever the failing
body is nonempty (an empty upstream body is instead replaced by the decoded
value `{ error: "Empty response from API" }`). -/
theorem c1_parse_failure (env : Option String) (k : String)
    (img1 img2 img : File) (r : UpstreamResponse)
    (hk : k ≠ "") (hp : r.parsed = none) :
    (verifyPOST env ⟨some k, some img1, some img2⟩ (.success r)).response =
      ⟨500, parseFailureBody r.bodyText⟩ ∧
    (r.bodyText ≠ "" →
      (agePOST env ⟨some k, some img⟩ (.success r)).response =
        ⟨500, parseFailureBody r.bodyText⟩) ∧
    (truncate500 r.bodyText).length ≤ 500 := by
  refine ⟨?_, ?_, ?_⟩
  · simp [verifyPOST, headerFalsy, hk, verifyHandleUpstream, hp]
  · intro hne
    simp [agePOST, headerFalsy, hk, ageHandleUpstream, hne, hp]
  · simp only [truncate500]
    have h : ((r.bodyText.toList.take 500).asString).length
        = (r.bodyText.toList.take 500).length := rfl
    rw [h]
    exact List.length_take_le _ _

/-- C1 witness: the spec's own scenario — upstream HTTP 200 with body
`"not json"` — makes the verification proxy answer 500 with the parse
failure error and the raw body as details. -/
theorem c1_witness :
    (verifyPOST none ⟨some "key", some ⟨[1], "image/png"⟩,
        some ⟨[2], "image/png"⟩⟩ (.success ⟨200, "not json", none⟩)).response =
      ⟨500, parseFailureBody "not json"⟩ :=
  (c1_parse_failure none "key" ⟨[1], "image/png"⟩ ⟨[2], "image/png"⟩
    ⟨[3], "image/png"⟩ ⟨200, "not json", none⟩ (by decide) rfl).1

/-- C2: on every accepted request both proxies start a 30000 ms abort timer
and clear it on every fetch outcome, and an aborted call (the thrown
`AbortError`) yields exactly the single HTTP 500 response with error
"Request timed out after 30 seconds". -/
theorem c2_timeout (env : Option String) (k : String) (img img1 img2 : File)
    (outcome : FetchOutcome) (e : JsError) (hk : k ≠ "") :
    ((agePOST env ⟨some k, some img⟩ outcome).timerDelayMs = some 30000 ∧
     (agePOST env ⟨some k, some img⟩ outcome).timerCleared = true ∧
     (verifyPOST env ⟨some k, some img1, some img2⟩ outcome).timerDelayMs =
       some 30000 ∧
     (verifyPOST env ⟨some k, some img1, some img2⟩ outcome).timerCleared =
       true) ∧
    (e.name = "AbortError" →
      (agePOST env ⟨some k, some img⟩ (.thrown e)).response =
        ⟨500, .obj [("error", .str "Request timed out after 30 seconds"),
                    ("details", .str e.stack)]⟩ ∧
      (verifyPOST env ⟨some k, some img1, some img2⟩ (.thrown e)).response =
        ⟨500, .obj [("error", .str "Request timed out after 30 seconds"),
                    ("details", .str e.stack)]⟩) := by
  constructor
  · cases outcome <;>
      simp [agePOST, verifyPOST, headerFalsy, hk]
  · intro hn
    constructor <;>
      simp [agePOST, verifyPOST, headerFalsy, hk, catchAllResponse, hn]

/-- C2 witness: a concrete aborted call yields the timeout failure. -/
theorem c2_witness :
    (agePOST none ⟨some "key", some ⟨[9], "image/png"⟩⟩
        (.thrown ⟨"AbortError", "The user aborted a request.", "st"⟩)).response =
      ⟨500, .obj [("error", .str "Request timed out after 30 seconds"),
                  ("details", .str "st")]⟩ :=
  ((c2_timeout none "key" ⟨[9], "image/png"⟩ ⟨[9], "image/png"⟩
      ⟨[9], "image/png"⟩ (.thrown ⟨"AbortError", "The user aborted a request.", "st"⟩)
      ⟨"AbortError", "The user aborted a request.", "st"⟩ (by decide)).2 rfl).1

/-- C3 counterexample: when the non-2xx upstream body is `{"message":5}`,
the relayed `error` field is the number `5`, not a string, so the claim's
"JSON body containing an error string" fails. -/
theorem c3_counterexample :
    (jsGet ((verifyPOST none ⟨some "key", some ⟨[1], "image/png"⟩,
          some ⟨[2], "image/png"⟩⟩
        (.success ⟨401, "\x7b\"message\":5\x7d",
          some (.obj [("message", .num 5)])⟩)).response.body) "error" =
      some (.num 5)) ∧
    (∀ s : String, Json.num 5 ≠ Json.str s) ∧
    ((verifyPOST none ⟨some "key", some ⟨[1], "image/png"⟩,
          some ⟨[2], "image/png"⟩⟩
        (.success ⟨401, "\x7b\"message\":5\x7d",
          some (.obj [("message", .num 5)])⟩)).response.status = 401) :=
  ⟨rfl, fun _ h => Json.noConfusion h, rfl⟩

/-- C3 (amended): for every non-2xx upstream response whose body decodes as
JSON, both proxies relay the upstream status with a JSON body whose `error`
field is the upstream body's `message` value when that value is truthy (it
need not be a string), otherwise the string
"API returned error status: <status>"; the `status` field equals the
upstream status and the `details` field is the decoded body verbatim. -/
theorem c3_error_relay (env : Option String) (k : String)
    (img img1 img2 : File) (r : UpstreamResponse) (data : Json)
    (hk : k ≠ "") (hok : statusOk r.status = false)
    (hp : r.parsed = some data) (hwf : r.WF) :
    (verifyPOST env ⟨some k, some img1, some img2⟩ (.success r)).response =
      ⟨r.status, errorStatusBody r.status data⟩ ∧
    (agePOST env ⟨some k, some img⟩ (.success r)).response =
      ⟨r.status, errorStatusBody r.status data⟩ ∧
    jsGet (errorStatusBody r.status data) "details" = some data ∧
    jsGet (errorStatusBody r.status data) "status" =
      some (.num (r.status : Rat)) := by
  have hne : r.bodyText ≠ "" := by
    intro h
    rw [hwf h] at hp
    exact Option.noConfusion hp
  refine ⟨?_, ?_, ?_, ?_⟩
  · simp [verifyPOST, headerFalsy, hk, verifyHandleUpstream, hp, hok]
  · simp [agePOST, headerFalsy, hk, ageHandleUpstream, hne, hp, hok]
  · simp [errorStatusBody, jsGet, lookupField]
  · simp [errorStatusBody, jsGet, lookupField]

/-- C3 witness: the spec's scenario — an upstream 401 whose decoded body has
no `message` field — is relayed as HTTP 401 with its details preserved
verbatim and the fallback error string. -/
theorem c3_witness :
    (verifyPOST none ⟨some "key", some ⟨[1], "image/png"⟩,
        some ⟨[2], "image/png"⟩⟩
      (.success ⟨401, "\x7b\"detail\":\"Invalid API key\"\x7d",
        some (.obj [("detail", .str "Invalid API key")])⟩)).response =
      ⟨401, errorStatusBody 401 (.obj [("detail", .str "Invalid API key")])⟩ :=
  (c3_error_relay none "key" ⟨[3], "image/png"⟩ ⟨[1], "image/png"⟩
    ⟨[2], "image/png"⟩
    ⟨401, "\x7b\"detail\":\"Invalid API key\"\x7d",
      some (.obj [("detail", .str "Invalid API key")])⟩
    (.obj [("detail", .str "Invalid API key")])
    (by decide) (by decide) rfl
    (fun h => absurd h (by decide))).1

/-- C4: a request missing the `X-API-KEY` header gets HTTP 400 with the
missing-credential error, and a request with a key but missing a required
image field gets HTTP 400 with the missing-image error; in every such case
no outbound call is issued (and no timer is started). -/
theorem c4_validation (env : Option String) (imgOpt i1 i2 : Option File)
    (k : String) (outcome : FetchOutcome)
    (hk : k ≠ "") (hmiss : i1 = none ∨ i2 = none) :
    agePOST env ⟨none, imgOpt⟩ outcome =
      ⟨⟨400, .obj [("error", .str "X-API-KEY is required")]⟩,
        none, none, false⟩ ∧
    verifyPOST env ⟨none, i1, i2⟩ outcome =
      ⟨⟨400, .obj [("error", .str "X-API-KEY is required")]⟩,
        none, none, false⟩ ∧
    agePOST env ⟨some k, none⟩ outcome =
      ⟨⟨400, .obj [("error", .str "Image is required")]⟩, none, none, false⟩ ∧
    verifyPOST env ⟨some k, i1, i2⟩ outcome =
      ⟨⟨400, .obj [("error", .str "Both images are required")]⟩,
        none, none, false⟩ := by
  refine ⟨?_, ?_, ?_, ?_⟩
  · simp [agePOST, headerFalsy]
  · simp [verifyPOST, headerFalsy]
  · simp [agePOST, headerFalsy, hk]
  · rcases hmiss with h | h <;> subst h
    · cases i2 <;> simp [verifyPOST, headerFalsy, hk]
    · cases i1 <;> simp [verifyPOST, headerFalsy, hk]

/-- C4 witness: a keyless age request and a keyed verification request
missing its second image are both rejected with 400 and no outbound call. -/
theorem c4_witness :
    agePOST none ⟨none, some ⟨[1], "image/png"⟩⟩
        (.success ⟨200, "ok", none⟩) =
      ⟨⟨400, .obj [("error", .str "X-API-KEY is required")]⟩,
        none, none, false⟩ ∧
    verifyPOST none ⟨some "key", some ⟨[1], "image/png"⟩, none⟩
        (.success ⟨200, "ok", none⟩) =
      ⟨⟨400, .obj [("error", .str "Both images are required")]⟩,
        none, none, false⟩ :=
  ⟨(c4_validation none (some ⟨[1], "image/png"⟩) (some ⟨[1], "image/png"⟩)
      none "key" (.success ⟨200, "ok", none⟩) (by decide) (Or.inr rfl)).1,
   (c4_validation none (some ⟨[1], "image/png"⟩) (some ⟨[1], "image/png"⟩)
      none "key" (.success ⟨200, "ok", none⟩) (by decide)
      (Or.inr rfl)).2.2.2⟩

/-- C5: on every accepted request each image is re-encoded to base64 with
the data-URL metadata stripped (for any comma-free MIME type), and the one
outbound POST goes to the environment-configured URL (with its hardcoded
default) carrying `{ image }` resp. `{ img1, img2 }` and the headers
`Content-Type: application/json`, `X-Service-Code: face`, and the caller's
key verbatim. -/
theorem c5_outbound (env : Option String) (k : String) (img f1 f2 : File)
    (outcome : FetchOutcome) (hk : k ≠ "")
    (hm : ',' ∉ img.mime.toList) (h1 : ',' ∉ f1.mime.toList)
    (h2 : ',' ∉ f2.mime.toList) :
    (agePOST env ⟨some k, some img⟩ outcome).outbound =
      some ⟨env.getD "https://face.simic.app/api/age/", "POST",
        "application/json", "face", k,
        .obj [("image", .str ((base64Encode img.bytes).asString))]⟩ ∧
    (verifyPOST env ⟨some k, some f1, some f2⟩ outcome).outbound =
      some ⟨env.getD "https://face.simic.app/api/verify/", "POST",
        "application/json", "face", k,
        .obj [("img1", .str ((base64Encode f1.bytes).asString)),
              ("img2", .str ((base64Encode f2.bytes).asString))]⟩ := by
  constructor <;> cases outcome <;>
    simp [agePOST, verifyPOST, headerFalsy, hk,
      fileToBase64_eq_base64 img hm, fileToBase64_eq_base64 f1 h1,
      fileToBase64_eq_base64 f2 h2]

/-- C5 witness: a concrete accepted age request issues the outbound POST to
the default URL with the base64 payload `"TWFu"` for the bytes of `"Man"`. -/
theorem c5_witness :
    (agePOST none ⟨some "key", some ⟨[77, 97, 110], "image/png"⟩⟩
        (.success ⟨200, "\x7b\x7d", some (.obj [])⟩)).outbound =
      some ⟨"https://face.simic.app/api/age/", "POST", "application/json",
        "face", "key", .obj [("image", .str "TWFu")]⟩ :=
  (c5_outbound none "key" ⟨[77, 97, 110], "image/png"⟩
    ⟨[77, 97, 110], "image/png"⟩ ⟨[77, 97, 110], "image/png"⟩
    (.success ⟨200, "\x7b\x7d", some (.obj [])⟩) (by decide)
    (by decide) (by decide) (by decide)).1

/-- C6: every 2xx upstream response whose body decodes as JSON is returned
verbatim by both proxies with HTTP 200. -/
theorem c6_success (env : Option String) (k : String) (img f1 f2 : File)
    (r : UpstreamResponse) (j : Json) (hk : k ≠ "") (hwf : r.WF)
    (hok : statusOk r.status = true) (hp : r.parsed = some j) :
    (agePOST env ⟨some k, some img⟩ (.success r)).response = ⟨200, j⟩ ∧
    (verifyPOST env ⟨some k, some f1, some f2⟩ (.success r)).response =
      ⟨200, j⟩ := by
  have hne : r.bodyText ≠ "" := by
    intro h
    rw [hwf h] at hp
    exact Option.noConfusion hp
  constructor
  · simp [agePOST, headerFalsy, hk, ageHandleUpstream, hne, hp, hok]
  · simp [verifyPOST, headerFalsy, hk, verifyHandleUpstream, hp, hok]

/-- C6 witness: an upstream 200 with decoded body `{"age": 30}` is relayed
verbatim with status 200. -/
theorem c6_witness :
    (agePOST none ⟨some "key", some ⟨[1], "image/png"⟩⟩
        (.success ⟨200, "\x7b\"age\":30\x7d",
          some (.obj [("age", .num 30)])⟩)).response =
      ⟨200, .obj [("age", .num 30)]⟩ :=
  (c6_success none "key" ⟨[1], "image/png"⟩ ⟨[1], "image/png"⟩
    ⟨[1], "image/png"⟩
    ⟨200, "\x7b\"age\":30\x7d", some (.obj [("age", .num 30)])⟩
    (.obj [("age", .num 30)]) (by decide)
    (fun h => absurd h (by decide)) (by decide) rfl).1

/-- C7: a client form submission with the API key absent or a required
image absent sets a local validation error and issues no network call,
leaving the result and loading state unchanged — on the proxy page's
`handleSubmit` and the multi-kind page's `handleVerificationSubmit`. -/
theorem c7_client_validation (env env2 : Option String)
    (s : ProxyPage.State) (t : MultiPage.State)
    (outcome outcome2 : ClientOutcome)
    (hs : s.image1 = none ∨ s.image2 = none ∨ s.apiKey = "")
    (ht : t.apiKey = "" ∨ t.image1 = none ∨ t.image2 = none) :
    ProxyPage.handleSubmit env s outcome =
      ({ s with error := some "All fields are required" }, none) ∧
    MultiPage.handleVerificationSubmit env2 t outcome2 =
      ({ t with error := some (if t.apiKey = "" then "API key is required"
          else "Both images are required") }, none) := by
  constructor
  · rcases hs with h | h | h <;> simp [ProxyPage.handleSubmit, h]
  · by_cases hak : t.apiKey = ""
    · simp [MultiPage.handleVerificationSubmit, hak]
    · have himg : t.image1 = none ∨ t.image2 = none := by
        rcases ht with h | h | h
        · exact absurd h hak
        · exact Or.inl h
        · exact Or.inr h
      rcases himg with h | h
      · cases h2 : t.image2 <;>
          simp [MultiPage.handleVerificationSubmit, hak, h, h2]
      · cases h1 : t.image1 <;>
          simp [MultiPage.handleVerificationSubmit, hak, h, h1]

/-- C7 witness: submitting either page's pristine state (no key, no images)
sets the validation error and issues no call. -/
theorem c7_witness :
    ProxyPage.handleSubmit none ProxyPage.initialState
        (.reply true (.obj [])) =
      ({ ProxyPage.initialState with
          error := some "All fields are required" }, none) ∧
    MultiPage.handleVerificationSubmit none MultiPage.initialState
        (.reply true (.obj [])) =
      ({ MultiPage.initialState with
          error := some "API key is required" }, none) := by
  have h := c7_client_validation none none ProxyPage.initialState
    MultiPage.initialState (.reply true (.obj [])) (.reply true (.obj []))
    (Or.inl rfl) (Or.inl rfl)
  exact ⟨h.1, h.2⟩

/-- C8: in the multi-kind page, a selected file larger than 5 MB is
rejected by every change handler before any preview encoding: the local
size error is set and the stored image and preview for that slot are left
unchanged. -/
theorem c8_oversize (s : MultiPage.State) (f : File)
    (hf : f.size > MultiPage.MAX_IMAGE_SIZE) :
    MultiPage.validateImageSize s f =
      ({ s with error := some "Image size exceeds the maximum limit of 5MB" },
        false) ∧
    MultiPage.handleImage1Change s (some f) =
      { s with error := some "Image size exceeds the maximum limit of 5MB" } ∧
    MultiPage.handleImage2Change s (some f) =
      { s with error := some "Image size exceeds the maximum limit of 5MB" } ∧
    MultiPage.handleEmotionImageChange s (some f) =
      { s with error := some "Image size exceeds the maximum limit of 5MB" } ∧
    MultiPage.handleAgeImageChange s (some f) =
      { s with error := some "Image size exceeds the maximum limit of 5MB" } ∧
    MultiPage.handleGenderImageChange s (some f) =
      { s with error := some "Image size exceeds the maximum limit of 5MB" } := by
  have hmsg : ("Image size exceeds the maximum limit of " ++
      toString (MultiPage.MAX_IMAGE_SIZE / (1024 * 1024)) ++ "MB") =
      "Image size exceeds the maximum limit of 5MB" := rfl
  refine ⟨?_, ?_, ?_, ?_, ?_, ?_⟩ <;>
    simp [MultiPage.validateImageSize, MultiPage.handleImage1Change,
      MultiPage.handleImage2Change, MultiPage.handleEmotionImageChange,
      MultiPage.handleAgeImageChange, MultiPage.handleGenderImageChange,
      hf, hmsg]

/-- C8 witness: a 5 MB + 1 byte file is rejected by `handleImage1Change`
from the initial state. -/
theorem c8_witness :
    oversizeFile.size > MultiPage.MAX_IMAGE_SIZE ∧
    MultiPage.handleImage1Change MultiPage.initialState (some oversizeFile) =
      { MultiPage.initialState with
          error := some "Image size exceeds the maximum limit of 5MB" } := by
  have h : oversizeFile.size > MultiPage.MAX_IMAGE_SIZE := by
    simp only [oversizeFile, File.size, List.length_replicate,
      MultiPage.MAX_IMAGE_SIZE]
    omega
  exact ⟨h, (c8_oversize MultiPage.initialState oversizeFile h).2.1⟩

/-- C9 counterexample: on the multi-kind page — one of the claim's two
cited render sites — a successful verification submission stores the
payload, but the verification result block renders only the raw dump: the
"Match Found" summary does not appear among its text fragments. -/
theorem c9_counterexample :
    (MultiPage.handleVerificationSubmit none MultiPage.readyState
        (.reply true verifySuccessPayload)).1.verificationResponse =
      some verifySuccessPayload ∧
    "Match Found" ∉ MultiPage.verificationResultFragments
      verifySuccessPayload := by
  constructor
  · rfl
  · simp [MultiPage.verificationResultFragments]

/-- C9 (amended): for the success payload
`{ verified: true, similarity_score: 0.93, message: "Match" }`, the
proxy-backed verification page stores the payload and renders the summary
"Match Found" with "Similarity Score: 93.00%" alongside the raw structured
dump, while the multi-kind page stores the payload but renders only the raw
structured dump with no summary. -/
theorem c9_render :
    (ProxyPage.handleSubmit none ProxyPage.readyState
        (.reply true verifySuccessPayload)).1.response =
      some verifySuccessPayload ∧
    ProxyPage.resultFooterFragments verifySuccessPayload =
      ["Match Found", "Match", "Similarity Score: 93.00%", "API Response:"] ∧
    ProxyPage.resultFooterDump verifySuccessPayload = verifySuccessPayload ∧
    MultiPage.verificationResultFragments verifySuccessPayload =
      ["API Response:"] ∧
    MultiPage.verificationResultDump verifySuccessPayload =
      verifySuccessPayload := by
  refine ⟨rfl, ?_, rfl, rfl, rfl⟩
  have hfl : Rat.floor ((93 : Rat) * 100 + 1/2) = 9300 := by
    have hlb : (9300 : Int) ≤ Rat.floor ((93 : Rat) * 100 + 1/2) := by
      rw [Rat.le_floor]
      push_cast
      norm_num
    have hub : ¬ ((9301 : Int) ≤ Rat.floor ((93 : Rat) * 100 + 1/2)) := by
      rw [Rat.le_floor]
      push_cast
      norm_num
    omega
  have hfix : jsToFixed2 (93 : Rat) = "93.00" := by
    simp only [jsToFixed2]
    rw [hfl]
    rfl
  simp [ProxyPage.resultFooterFragments, ProxyPage.similarityText,
    verifySuccessPayload, jsGet, lookupField, jsTruthyOpt, jsTruthy,
    jsDisplay, hfix]

/-- C10: invoking `saveApiKey` while the key input is empty or
whitespace-only is a complete no-op on both pages: nothing is written to
storage and the state (including `isApiKeySaved` and `isEditingApiKey`) is
unchanged. -/
theorem c10_save_noop (s : ProxyPage.State) (t : MultiPage.State)
    (st1 st2 : Option String)
    (hs : jsTrim s.apiKey = "") (ht : jsTrim t.apiKey = "") :
    ProxyPage.saveApiKey s st1 = (s, st1) ∧
    MultiPage.saveApiKey t st2 = (t, st2) := by
  constructor
  · simp [ProxyPage.saveApiKey, hs]
  · simp [MultiPage.saveApiKey, ht]

/-- C10 witness: a whitespace-only key (three spaces) is not saved and the
state is untouched, on both pages. -/
theorem c10_witness :
    ProxyPage.saveApiKey { ProxyPage.initialState with apiKey := "   " }
        (some "old") =
      ({ ProxyPage.initialState with apiKey := "   " }, some "old") ∧
    MultiPage.saveApiKey { MultiPage.initialState with apiKey := "   " }
        none =
      ({ MultiPage.initialState with apiKey := "   " }, none) :=
  c10_save_noop { ProxyPage.initialState with apiKey := "   " }
    { MultiPage.initialState with apiKey := "   " } (some "old") none
    rfl rfl

end FaceRec
